import Mathlib

/-
Verification of the core fetch-classify-place pipeline of
lucbarr/earthpornbot (src/api/reddit.go and the bootstrap main file).

The Go code is shallowly embedded: pure computations (the extension
filter's regex matching, the filename derivation, the codec choice, the
placement decision, the collection loop over received outcomes) become
Lean functions, and every effectful step (filesystem, network, channel
sends) is driven by an oracle environment fixing that step's outcome,
while the steps a run actually performs are recorded in an event trace.
float64 aspect ratios are embedded as exact rationals: for the integer
pixel dimensions png/jpeg admit, the float64 comparison width/height >
1.0 agrees with the exact rational comparison.
-/

set_option maxHeartbeats 1000000
set_option maxRecDepth 4096

/-- One unit-of-work error, as sent on the abort channel by fetchImage
(src/api/reddit.go lines 97-170). Constructors correspond to the abort
sites in source order; the (sometimes copy-pasted) message strings are
elided, except for the filename the create failure interpolates. -/
inductive FetchErr where
  | noRegexMatch
  | createFailed (filename : String)
  | chmodFailed
  | headFailed
  | getFailed
  | copyFailed
  | aspectFailed
  | renameFailed
  deriving DecidableEq

/-- The handles a unit of work could close: the created local file and the
GET response body get deferred closes in fetchImage; the HEAD response
body and the file opened by getImageAspectRatio get none. -/
inductive Handle where
  | createdFile
  | headBody
  | getBody
  | extractFile
  deriving DecidableEq

/-- Trace events: the observable effects of one unit of work. -/
inductive Ev where
  | createFile (filename : String)
  | chmod (filename : String)
  | headReq (url : String)
  | getReq (url : String)
  | copyBody
  | openFile (filename : String)
  | closeFile (h : Handle)
  | rename (oldPath newPath : String)
  | send (outcome : Option FetchErr)
  deriving DecidableEq

/-- Errors of getImageAspectRatio: the os.Open error, the jpeg/png
DecodeConfig error, and the unsupported-file-type error it creates
itself (src/api/reddit.go line 231). -/
inductive ExtractErr where
  | ioError
  | decodeError
  | unsupportedFormat
  deriving DecidableEq

/-- imageCodec constant JPEG (src/api/reddit.go lines 212-217); the Go
imageCodec type is a string type, whose zero value is the empty string. -/
def JPEG : String := "jpeg"

/-- imageCodec constant PNG (src/api/reddit.go lines 212-217). -/
def PNG : String := "png"

/-- The codec chosen from the HEAD content-type (src/api/reddit.go lines
128-133): the codec variable keeps its zero value, the empty string, when
the declared type is neither supported one. -/
def codecOf (contentType : String) : String :=
  if contentType = "image/jpeg" then JPEG
  else if contentType = "image/png" then PNG
  else ""

/-- Oracle for getImageAspectRatio's effects: whether os.Open succeeds,
and whether DecodeConfig succeeds and with which pixel dimensions. -/
structure ExtractEnv where
  openOk : Bool
  decodeOk : Bool
  width : Nat
  height : Nat
  deriving DecidableEq

/-- width / height as an exact rational (the float64 division of
src/api/reddit.go lines 241 and 250; exact for the dimensions png and
jpeg headers can carry, as far as the comparison against 1.0 goes). -/
def ratioOf (width height : Nat) : ℚ :=
  (width : ℚ) / (height : ℚ)

/-- getImageAspectRatio (src/api/reddit.go lines 219-233) with
getJPEGAspectRatio and getPNGAspectRatio (lines 235-251) inlined: opens
the file, then switches on the codec, defaulting to the unsupported-type
error. The source installs no close for the opened handle on any path;
accordingly no branch emits a close event. -/
def getImageAspectRatio (x : ExtractEnv) (filename : String) (codec : String) :
    List Ev × Except ExtractErr ℚ :=
  if !x.openOk then ([], .error .ioError)
  else if codec = JPEG then
    ([.openFile filename],
      if x.decodeOk then .ok (ratioOf x.width x.height) else .error .decodeError)
  else if codec = PNG then
    ([.openFile filename],
      if x.decodeOk then .ok (ratioOf x.width x.height) else .error .decodeError)
  else ([.openFile filename], .error .unsupportedFormat)

/-- The placement decision (src/api/reddit.go lines 155-160): the "hori"
directory when the aspect ratio exceeds 1.0, the "vert" one otherwise. -/
def newPathFor (aspectRatio : ℚ) (filename : String) : String :=
  if aspectRatio > 1 then "hori/" ++ filename else "vert/" ++ filename

/-- The maximal slash-free suffix of the URL: the one match of the Go
regexp pattern of src/api/reddit.go line 92 (everything after the last
slash, possibly empty). -/
def lastSegment (url : String) : String :=
  ⟨(url.data.reverse.takeWhile (fun c => c != '/')).reverse⟩

/-- Models FindAllString of that pattern with limit 1 (src/api/reddit.go
line 98). Because the pattern also matches the empty string, a match is
found in every string, so the result always has exactly one element. -/
def findAllFilename (url : String) : List String :=
  [lastSegment url]

/-- Oracle fixing the outcome of each effectful step of one fetchImage
run: file creation, chmod, HEAD (with its declared content-type), GET,
body copy, the extractor's steps, and the final rename. -/
structure FetchEnv where
  createOk : Bool
  chmodOk : Bool
  headOk : Bool
  contentType : String
  getOk : Bool
  copyOk : Bool
  xenv : ExtractEnv
  renameOk : Bool
  deriving DecidableEq

/-- Deferred calls run when the function returns: the branch's own events
are followed by the pending closes, installed-last first. -/
def withDefer (deferred tail : List Ev) : List Ev :=
  tail ++ deferred

/-- fetchImage (src/api/reddit.go lines 97-170) as the event trace of one
run, one branch per abort site; the strings.Builder logging is elided.
The deferred closes are the created file's (installed line 110, so active
from the chmod step on) and the GET body's (installed line 141, after the
GET error check, so active only from the copy step on). The HEAD response
is overwritten by the GET response before any close of it is installed. -/
def fetchImage (r : FetchEnv) (url : String) : List Ev :=
  let ms := findAllFilename url
  if ms.length = 0 then [.send (some .noRegexMatch)]
  else
    let filename := ms.headD ""
    .createFile filename ::
      (if !r.createOk then [.send (some (.createFailed filename))]
       else withDefer [.closeFile .createdFile]
        (.chmod filename ::
          (if !r.chmodOk then [.send (some .chmodFailed)]
           else .headReq url ::
            (if !r.headOk then [.send (some .headFailed)]
             else
              let codec := codecOf r.contentType
              .getReq url ::
                (if !r.getOk then [.send (some .getFailed)]
                 else withDefer [.closeFile .getBody]
                  (.copyBody ::
                    (if !r.copyOk then [.send (some .copyFailed)]
                     else
                      let x := getImageAspectRatio r.xenv filename codec
                      x.1 ++
                        (match x.2 with
                         | .error _ => [.send (some .aspectFailed)]
                         | .ok aspectRatio =>
                             .rename filename (newPathFor aspectRatio filename) ::
                               (if !r.renameOk then [.send (some .renameFailed)]
                                else [.send none])))))))))

/-- The outcome carried by a send event, if the event is one. -/
def sendPayload : Ev → Option (Option FetchErr)
  | .send o => some o
  | _ => none

/-- The outcomes a trace sends on the abort channel, in order. -/
def sendPayloads (t : List Ev) : List (Option FetchErr) :=
  t.filterMap sendPayload

/-- The single outcome a unit of work sends (units send exactly once). -/
def sentOutcome (r : FetchEnv) (url : String) : Option FetchErr :=
  (sendPayloads (fetchImage r url)).headD none

/-- Whether an event is a network request (HEAD or GET). -/
def isNetEv : Ev → Bool
  | .headReq _ => true
  | .getReq _ => true
  | _ => false

/-- Whether an event is a placement (an os.Rename into hori/ or vert/). -/
def isRenameEv : Ev → Bool
  | .rename _ _ => true
  | _ => false

/-- The handles a trace closes, in order. -/
def closedHandles (t : List Ev) : List Handle :=
  t.filterMap fun e =>
    match e with
    | .closeFile h => some h
    | _ => none

/-- Result of the orchestrator's collection loop: either FetchSubmissions
returns a value, with the outcomes that were never received left over
(their senders stay blocked on the unbuffered channel), or a receive
blocks forever because no outcome is left to arrive. -/
inductive LoopResult where
  | returned (result : Option FetchErr) (unread : List (Option FetchErr))
  | blocked
  deriving DecidableEq

/-- The collection loop of FetchSubmissions (src/api/reddit.go lines
177-182), run over the unit outcomes in arrival order: n iterations of a
receive; a non-nil value makes the loop perform a second receive and
return that second value; falling off the loop returns nil. -/
def collectLoop : Nat → List (Option FetchErr) → LoopResult
  | 0, arrivals => .returned none arrivals
  | _ + 1, [] => .blocked
  | n + 1, none :: arrivals => collectLoop n arrivals
  | _ + 1, some _ :: arrivals =>
      match arrivals with
      | [] => .blocked
      | o :: rest => .returned o rest

/-- The dispatch loop of FetchSubmissions (src/api/reddit.go lines
172-175): one goroutine per valid URL, each running fetchImage under its
own oracle environment. -/
def unitsOf (envOf : String → FetchEnv) (validURLs : List String) : List (List Ev) :=
  validURLs.map fun url => fetchImage (envOf url) url

/-- Models the Go regexp compiled by NewReddit (src/api/reddit.go lines
53-58) from the format string "^.+\\.%s$", for a bare extension (one with
no regex metacharacters, as the configuration examples jpg and png are):
the string is one or more non-newline characters, then a literal dot,
then the extension, anchored at both ends. -/
def matchCore (ext : List Char) : List Char → Bool
  | [] => false
  | c :: rest => (c != '\n') && (rest == '.' :: ext || matchCore ext rest)

/-- MatchString of the compiled per-extension pattern. -/
def extRegexMatch (ext s : String) : Bool :=
  matchCore ext.data s.data

/-- isImageURL (src/api/reddit.go lines 195-201): a fold of boolean or
over the compiled patterns, starting from false. -/
def isImageURL (allowedExt : List String) (s : String) : Bool :=
  allowedExt.foldl (fun ret ext => ret || extRegexMatch ext s) false

/-- The filtering loop of fetchSubmissions (src/api/reddit.go lines
203-208): append each post URL passing isImageURL to the accumulator. -/
def validURLsOf (allowedExt : List String) (postURLs : List String) : List String :=
  postURLs.foldl (fun acc u => if isImageURL allowedExt u then acc ++ [u] else acc) []

/-- Spec-side predicate for the extension filter, written from the spec's
words alone, for comparison with the code's regex: the URL ends in a dot
followed by an allowed extension (anchored suffix match). -/
def specEndsWithExt (ext url : String) : Bool :=
  ('.' :: ext.data).isSuffixOf url.data

/-- The configuration values the constructors read from viper (keys of
the on-disk config file). -/
structure ViperConfig where
  user : String
  password : String
  clientID : String
  clientSecret : String
  limit : Int
  subredditName : String
  allowedExtensions : List String

/-- Config (src/api/reddit.go lines 20-27). -/
structure Config where
  User : String
  Password : String
  ClientID : String
  ClientSecret : String
  Limit : Int

/-- defaultConfig (src/api/reddit.go lines 29-37). -/
def defaultConfig (v : ViperConfig) : Config :=
  ⟨v.user, v.password, v.clientID, v.clientSecret, v.limit⟩

/-- Reddit (src/api/reddit.go lines 40-48); the http client and oauth
session are external handles and are elided; each compiled regex is kept
as the extension string it was built from. -/
structure Reddit where
  cfg : Config
  subreddit : String
  limit : Int
  allowedExtMatches : List String

/-- NewReddit (src/api/reddit.go lines 51-66); the composite literal
leaves the limit field at its zero value. -/
def NewReddit (v : ViperConfig) : Reddit :=
  ⟨defaultConfig v, v.subredditName, 0, v.allowedExtensions⟩

/-- The subreddit listing request fetchSubmissions issues (src/api/
reddit.go lines 186-190): a hard-coded topic string, the hot sort, and
the configured limit. -/
structure ListingQuery where
  subreddit : String
  sort : String
  limit : Int
  deriving DecidableEq

/-- The listing call's arguments (src/api/reddit.go line 190). -/
def listingQuery (r : Reddit) : ListingQuery :=
  ⟨"earthporn", "hot", r.cfg.Limit⟩

/-- fetchSubmissions (src/api/reddit.go lines 185-210), given the URLs of
the posts the listing returned: filter them by isImageURL. -/
def fetchSubmissions (r : Reddit) (postURLs : List String) : List String :=
  validURLsOf r.allowedExtMatches postURLs

/-- Folding boolean or from an arbitrary accumulator computes any. -/
theorem foldl_or_eq {α : Type} (f : α → Bool) (l : List α) (b : Bool) :
    l.foldl (fun r e => r || f e) b = (b || l.any f) := by
  induction l generalizing b with
  | nil => simp
  | cons x xs ih => simp [List.any_cons, ih, Bool.or_assoc]

/-- isImageURL accepts a URL exactly when some compiled pattern does. -/
theorem isImageURL_eq_any (allowedExt : List String) (s : String) :
    isImageURL allowedExt s = allowedExt.any (fun ext => extRegexMatch ext s) := by
  simpa [isImageURL] using foldl_or_eq (fun ext => extRegexMatch ext s) allowedExt false

/-- The append-accumulating loop computes filter. -/
theorem foldl_filter_append {α : Type} (f : α → Bool) (l acc : List α) :
    l.foldl (fun a u => if f u then a ++ [u] else a) acc = acc ++ l.filter f := by
  induction l generalizing acc with
  | nil => simp
  | cons x xs ih => by_cases h : f x <;> simp [h, ih, List.filter_cons]

/-- The filtering loop of fetchSubmissions is a filter by isImageURL. -/
theorem validURLsOf_eq_filter (allowedExt postURLs : List String) :
    validURLsOf allowedExt postURLs = postURLs.filter (fun u => isImageURL allowedExt u) := by
  simpa [validURLsOf] using
    foldl_filter_append (fun u => isImageURL allowedExt u) postURLs []

/-- Characterization of the per-extension pattern: a non-empty
newline-free chunk, a literal dot, the extension, and nothing after. -/
theorem matchCore_iff (ext url : List Char) :
    matchCore ext url = true ↔
      ∃ p, url = p ++ '.' :: ext ∧ p ≠ [] ∧ '\n' ∉ p := by
  induction url with
  | nil =>
    simp only [matchCore, Bool.false_eq_true, false_iff]
    rintro ⟨p, hp, hne, -⟩
    rcases p with - | ⟨c, p⟩
    · exact hne rfl
    · exact absurd hp (by simp)
  | cons c rest ih =>
    simp only [matchCore, Bool.and_eq_true, Bool.or_eq_true, bne_iff_ne, ne_eq,
      beq_iff_eq, ih]
    constructor
    · rintro ⟨hc, h | ⟨p, hp, hne, hnl⟩⟩
      · refine ⟨[c], by simp [h], by simp, by simp ; exact fun h2 => hc h2.symm⟩
      · refine ⟨c :: p, by simp [hp], by simp, ?_⟩
        simp only [List.mem_cons, not_or]
        exact ⟨fun h2 => hc h2.symm, hnl⟩
    · rintro ⟨p, hp, hne, hnl⟩
      rcases p with - | ⟨d, p⟩
      · exact absurd rfl hne
      · simp only [List.cons_append, List.cons.injEq] at hp
        obtain ⟨rfl, hrest⟩ := hp
        refine ⟨fun h2 => hnl (by simp [h2]), ?_⟩
        rcases p with - | ⟨e, p⟩
        · exact Or.inl (by simpa using hrest)
        · refine Or.inr ⟨e :: p, hrest, by simp, ?_⟩
          intro hm
          exact hnl (List.mem_cons_of_mem _ hm)

/-- The extractor's trace is empty (open failed) or a single open event. -/
theorem getImageAspectRatio_trace (x : ExtractEnv) (fn codec : String) :
    (getImageAspectRatio x fn codec).1 = [] ∨
      (getImageAspectRatio x fn codec).1 = [.openFile fn] := by
  cases hx : x.openOk
  · left
    simp [getImageAspectRatio, hx]
  · right
    unfold getImageAspectRatio
    rw [hx]
    simp only [Bool.not_true, Bool.false_eq_true, if_false]
    split_ifs <;> rfl

/-- The extractor's trace sends nothing on the abort channel. -/
theorem sendPayloads_extract (x : ExtractEnv) (fn codec : String) :
    sendPayloads (getImageAspectRatio x fn codec).1 = [] := by
  rcases getImageAspectRatio_trace x fn codec with h | h <;>
    simp [h, sendPayloads, sendPayload]

/-- The extractor's trace closes no handle. -/
theorem closedHandles_extract (x : ExtractEnv) (fn codec : String) :
    closedHandles (getImageAspectRatio x fn codec).1 = [] := by
  rcases getImageAspectRatio_trace x fn codec with h | h <;>
    simp [h, closedHandles]

/-- The extractor's trace performs no placement. -/
theorem renames_extract (x : ExtractEnv) (fn codec : String) :
    (getImageAspectRatio x fn codec).1.filter isRenameEv = [] := by
  rcases getImageAspectRatio_trace x fn codec with h | h <;>
    simp [h, isRenameEv]

/-- sendPayloads distributes over trace concatenation. -/
theorem sendPayloads_append (a b : List Ev) :
    sendPayloads (a ++ b) = sendPayloads a ++ sendPayloads b := by
  simp [sendPayloads, List.filterMap_append]

/-- Every fetchImage run sends exactly one outcome on the abort channel:
each failure path and the success path send once and stop. -/
theorem fetchImage_sends_len (r : FetchEnv) (url : String) :
    (sendPayloads (fetchImage r url)).length = 1 := by
  rcases getImageAspectRatio_trace r.xenv (lastSegment url) (codecOf r.contentType)
    with hxt | hxt <;>
  unfold fetchImage <;>
  cases h1 : r.createOk <;> cases h2 : r.chmodOk <;> cases h3 : r.headOk <;>
    cases h4 : r.getOk <;> cases h5 : r.copyOk <;> cases h6 : r.renameOk <;>
    rcases hres : (getImageAspectRatio r.xenv (lastSegment url) (codecOf r.contentType)).2
      with e | ratio <;>
    simp [findAllFilename, h1, h2, h3, h4, h5, h6, hres, hxt, withDefer,
      sendPayloads_append, sendPayloads, sendPayload]

/-- The naming-failure outcome is never sent: the pattern always matches,
so the branch guarding it is dead on every input. -/
theorem fetchImage_no_naming (r : FetchEnv) (url : String) :
    some FetchErr.noRegexMatch ∉ sendPayloads (fetchImage r url) := by
  rcases getImageAspectRatio_trace r.xenv (lastSegment url) (codecOf r.contentType)
    with hxt | hxt <;>
  unfold fetchImage <;>
  cases h1 : r.createOk <;> cases h2 : r.chmodOk <;> cases h3 : r.headOk <;>
    cases h4 : r.getOk <;> cases h5 : r.copyOk <;> cases h6 : r.renameOk <;>
    rcases hres : (getImageAspectRatio r.xenv (lastSegment url) (codecOf r.contentType)).2
      with e | ratio <;>
    simp [findAllFilename, h1, h2, h3, h4, h5, h6, hres, hxt, withDefer,
      sendPayloads_append, sendPayloads, sendPayload]

/-- The handles any fetchImage run closes: nothing (abort at naming or
create), just the created file (abort before the GET body defer), or the
GET body then the created file (deferred, last-installed first). -/
theorem fetchImage_closes (r : FetchEnv) (url : String) :
    closedHandles (fetchImage r url) = [] ∨
      closedHandles (fetchImage r url) = [.createdFile] ∨
      closedHandles (fetchImage r url) = [.getBody, .createdFile] := by
  rcases getImageAspectRatio_trace r.xenv (lastSegment url) (codecOf r.contentType)
    with hxt | hxt <;>
  unfold fetchImage <;>
  cases h1 : r.createOk <;> cases h2 : r.chmodOk <;> cases h3 : r.headOk <;>
    cases h4 : r.getOk <;> cases h5 : r.copyOk <;> cases h6 : r.renameOk <;>
    rcases hres : (getImageAspectRatio r.xenv (lastSegment url) (codecOf r.contentType)).2
      with e | ratio <;>
    simp [findAllFilename, h1, h2, h3, h4, h5, h6, hres, hxt, withDefer, closedHandles]

/-- A run that gets past the GET error check closes the GET body via the
deferred close installed there. -/
theorem fetchImage_closes_get_body (r : FetchEnv) (url : String)
    (h1 : r.createOk = true) (h2 : r.chmodOk = true) (h3 : r.headOk = true)
    (h4 : r.getOk = true) :
    Ev.closeFile Handle.getBody ∈ fetchImage r url := by
  rcases getImageAspectRatio_trace r.xenv (lastSegment url) (codecOf r.contentType)
    with hxt | hxt <;>
  unfold fetchImage <;>
  cases h5 : r.copyOk <;> cases h6 : r.renameOk <;>
    rcases hres : (getImageAspectRatio r.xenv (lastSegment url) (codecOf r.contentType)).2
      with e | ratio <;>
    simp [findAllFilename, h1, h2, h3, h4, h5, h6, hres, hxt, withDefer]

/-- The collection loop over all-nil outcomes drains them all and
returns nil. -/
theorem collectLoop_all_none (pre : List (Option FetchErr))
    (hpre : ∀ x ∈ pre, x = none) :
    collectLoop pre.length pre = .returned none [] := by
  induction pre with
  | nil => rfl
  | cons x xs ih =>
    have hx : x = none := hpre x (by simp)
    subst hx
    simpa [collectLoop] using ih (fun y hy => hpre y (by simp [hy]))

/-- When a non-nil outcome arrives while the loop is still running and at
least one outcome follows it, the loop receives exactly one more value,
returns that value, and leaves everything after it unread. -/
theorem collectLoop_first_failure (pre rest : List (Option FetchErr)) (e : FetchErr)
    (o : Option FetchErr) (n : Nat) (hpre : ∀ x ∈ pre, x = none)
    (hn : pre.length < n) :
    collectLoop n (pre ++ some e :: o :: rest) = .returned o rest := by
  induction pre generalizing n with
  | nil =>
    rcases n with - | n
    · exact absurd hn (by simp)
    · rfl
  | cons x xs ih =>
    have hx : x = none := hpre x (by simp)
    subst hx
    rcases n with - | n
    · exact absurd hn (by simp)
    · simpa [collectLoop] using
        ih n (fun y hy => hpre y (by simp [hy])) (Nat.lt_of_succ_lt_succ hn)

/-- When the non-nil outcome is the last one available, the second
receive of the failure branch blocks forever. -/
theorem collectLoop_last_failure_blocks (pre : List (Option FetchErr))
    (e : FetchErr) (n : Nat) (hpre : ∀ x ∈ pre, x = none)
    (hn : pre.length < n) :
    collectLoop n (pre ++ [some e]) = .blocked := by
  induction pre generalizing n with
  | nil =>
    rcases n with - | n
    · exact absurd hn (by simp)
    · rfl
  | cons x xs ih =>
    have hx : x = none := hpre x (by simp)
    subst hx
    rcases n with - | n
    · exact absurd hn (by simp)
    · simpa [collectLoop] using
        ih n (fun y hy => hpre y (by simp [hy])) (Nat.lt_of_succ_lt_succ hn)

/-- C1: the claim says FetchSubmissions is nil iff every unit succeeded,
and on failure returns some failing unit's non-nil error. The code bug:
after testing one received value non-nil, `return <-abort` performs a
second receive and returns that fresh value instead. With two units whose
outcomes arrive failure-first, a unit fails with the HEAD error, yet the
collection loop returns nil (the other unit's success outcome). -/
theorem c1_failure_then_success_returns_nil :
    sentOutcome ⟨true, true, false, "", true, true, ⟨true, true, 1, 1⟩, true⟩
        "https://i.example/a.jpg" = some FetchErr.headFailed
  ∧ sentOutcome ⟨true, true, true, "image/jpeg", true, true, ⟨true, true, 1, 1⟩, true⟩
        "https://i.example/b.jpg" = none
  ∧ some FetchErr.headFailed ≠ none
  ∧ collectLoop 2
        [sentOutcome ⟨true, true, false, "", true, true, ⟨true, true, 1, 1⟩, true⟩
            "https://i.example/a.jpg",
          sentOutcome
            ⟨true, true, true, "image/jpeg", true, true, ⟨true, true, 1, 1⟩, true⟩
            "https://i.example/b.jpg"] = LoopResult.returned none [] :=
  ⟨by decide, by decide, by decide, by decide⟩

/-- C2 counterexample: the claim says the collection loop receives exactly
N outcomes before FetchSubmissions returns even when an early outcome is a
failure. With N = 3 and arrival order failure-first, the loop returns
after receiving only two outcomes, leaving one unread (its sender stays
blocked on the unbuffered channel). -/
theorem c2_loop_leaves_outcome_unread :
    collectLoop 3 [some FetchErr.headFailed, none, none] =
      LoopResult.returned none [none]
  ∧ ([none] : List (Option FetchErr)) ≠ [] :=
  ⟨by decide, by decide⟩

/-- C2 (amended): the loop drains all N outcomes only on the all-success
path. When the first non-nil outcome arrives while later outcomes remain,
the loop performs exactly one extra receive, returns that value at once,
and leaves everything after it unread; when the non-nil outcome is the
last one available, the extra receive blocks forever. -/
theorem c2_drain_characterization (n : Nat) (pre rest : List (Option FetchErr))
    (e : FetchErr) (o : Option FetchErr) (hpre : ∀ x ∈ pre, x = none) :
    collectLoop pre.length pre = LoopResult.returned none []
  ∧ (pre.length < n →
      collectLoop n (pre ++ some e :: o :: rest) = LoopResult.returned o rest)
  ∧ (pre.length < n → collectLoop n (pre ++ [some e]) = LoopResult.blocked) :=
  ⟨collectLoop_all_none pre hpre,
    fun hn => collectLoop_first_failure pre rest e o n hpre hn,
    fun hn => collectLoop_last_failure_blocks pre e n hpre hn⟩

/-- C2 witness: the amended statement at concrete inputs (one nil, then a
failure, then two more outcomes; and one nil then a final failure). -/
theorem c2_drain_characterization_witness :
    collectLoop 1 [none] = LoopResult.returned none []
  ∧ collectLoop 3 [none, some FetchErr.headFailed, none, none] =
      LoopResult.returned none [none]
  ∧ collectLoop 3 [none, some FetchErr.headFailed] = LoopResult.blocked := by
  obtain ⟨a, b, c⟩ :=
    c2_drain_characterization 3 [none] [none] FetchErr.headFailed none (by simp)
  exact ⟨a, b (by norm_num), c (by norm_num)⟩

/-- C3 counterexample: the claim says a URL with no final path segment
fails at the naming step with the naming error. In fact the regex always
yields a (possibly empty) match, so the unit derives the empty filename
and fails at the file-creation step instead — with the create error, not
the naming error — though indeed before any network request. -/
theorem c3_no_segment_fails_at_create :
    sentOutcome ⟨false, true, true, "", true, true, ⟨true, true, 1, 1⟩, true⟩
        "https://example.com/" = some (FetchErr.createFailed "")
  ∧ some (FetchErr.createFailed "") ≠ some FetchErr.noRegexMatch
  ∧ (fetchImage ⟨false, true, true, "", true, true, ⟨true, true, 1, 1⟩, true⟩
        "https://example.com/").filter isNetEv = [] :=
  ⟨by decide, by decide, by decide⟩

/-- C3 (amended): the naming-error branch is dead (its outcome is never
sent, for any URL); for a URL with no non-empty final segment the derived
filename is empty, and when creating that file fails the unit aborts at
the create step with the create error, before any HEAD or GET request. -/
theorem c3_empty_name_create_failure (r : FetchEnv) (url : String) :
    some FetchErr.noRegexMatch ∉ sendPayloads (fetchImage r url)
  ∧ (lastSegment url = "" → r.createOk = false →
      fetchImage r url =
          [Ev.createFile "", Ev.send (some (FetchErr.createFailed ""))]
        ∧ (fetchImage r url).filter isNetEv = []) := by
  refine ⟨fetchImage_no_naming r url, fun hseg hc => ?_⟩
  have htr : fetchImage r url =
      [Ev.createFile "", Ev.send (some (FetchErr.createFailed ""))] := by
    unfold fetchImage
    simp [findAllFilename, hseg, hc]
  exact ⟨htr, by rw [htr]; rfl⟩

/-- C3 witness: the amended statement at a concrete slash-terminated URL
and an environment whose create step fails. -/
theorem c3_empty_name_create_failure_witness :
    fetchImage ⟨false, false, false, "x", false, false, ⟨false, false, 0, 0⟩, false⟩
        "https://img.example/" =
      [Ev.createFile "", Ev.send (some (FetchErr.createFailed ""))] :=
  ((c3_empty_name_create_failure
      ⟨false, false, false, "x", false, false, ⟨false, false, 0, 0⟩, false⟩
      "https://img.example/").2 (by decide) rfl).1

/-- C4: the claim says the aspect-ratio extractor closes the file handle
on every exit path. The code bug: getImageAspectRatio installs no close
at all, so the trace of every call closes no handle, even though a
successful open does acquire one. -/
theorem c4_extract_never_closes (x : ExtractEnv) (fn codec : String) :
    closedHandles (getImageAspectRatio x fn codec).1 = []
  ∧ (x.openOk = true → (getImageAspectRatio x fn codec).1 = [Ev.openFile fn]) := by
  refine ⟨closedHandles_extract x fn codec, fun ho => ?_⟩
  unfold getImageAspectRatio
  rw [ho]
  simp only [Bool.not_true, Bool.false_eq_true, if_false]
  split_ifs <;> rfl

/-- C4 witness: a successful open of a PNG acquires the handle and the
call still closes nothing. -/
theorem c4_extract_never_closes_witness :
    closedHandles (getImageAspectRatio ⟨true, true, 1920, 1080⟩ "a.png" PNG).1 = []
  ∧ (getImageAspectRatio ⟨true, true, 1920, 1080⟩ "a.png" PNG).1 =
      [Ev.openFile "a.png"] :=
  ⟨(c4_extract_never_closes ⟨true, true, 1920, 1080⟩ "a.png" PNG).1,
    (c4_extract_never_closes ⟨true, true, 1920, 1080⟩ "a.png" PNG).2 rfl⟩

/-- C5 counterexample: the claim says the filter keeps exactly the URLs
ending in a dot plus an allowed extension. The URL ".jpg" ends in ".jpg"
(the spec-side suffix predicate holds) yet the compiled pattern requires
at least one character before the dot, so the filter excludes it. -/
theorem c5_suffix_claim_false :
    validURLsOf ["jpg"] [".jpg"] = [] ∧ specEndsWithExt "jpg" ".jpg" = true :=
  ⟨by decide, by decide⟩

/-- C5 (amended): the filter returns exactly the subsequence, in original
relative order, of URLs consisting of a non-empty newline-free chunk,
then a literal dot, then an allowed extension, anchored at the end; an
empty allow-list yields an empty eligible set, not an error. -/
theorem c5_filter_characterization (allowedExt postURLs : List String)
    (ext url : String) :
    validURLsOf allowedExt postURLs =
      postURLs.filter (fun u => allowedExt.any (fun e => extRegexMatch e u))
  ∧ (validURLsOf allowedExt postURLs).Sublist postURLs
  ∧ validURLsOf [] postURLs = []
  ∧ (extRegexMatch ext url = true ↔
      ∃ p, url.data = p ++ '.' :: ext.data ∧ p ≠ [] ∧ '\n' ∉ p) := by
  refine ⟨?_, ?_, ?_, matchCore_iff ext.data url.data⟩
  · rw [validURLsOf_eq_filter]
    simp only [isImageURL_eq_any]
  · rw [validURLsOf_eq_filter]
    exact List.filter_sublist _
  · rw [validURLsOf_eq_filter]
    simp [isImageURL]

/-- C6: the placement router sends a file to the horizontal destination
exactly when width/height exceeds 1.0 and to the vertical one otherwise;
width equal to height (ratio exactly 1.0) routes to vertical. -/
theorem c6_orientation_routing (w h : Nat) (fn : String) (hh : 0 < h) :
    (ratioOf w h > 1 ↔ h < w)
  ∧ (ratioOf w h > 1 → newPathFor (ratioOf w h) fn = "hori/" ++ fn)
  ∧ (¬ratioOf w h > 1 → newPathFor (ratioOf w h) fn = "vert/" ++ fn)
  ∧ (w = h → newPathFor (ratioOf w h) fn = "vert/" ++ fn) := by
  have hq : (0 : ℚ) < (h : ℚ) := by exact_mod_cast hh
  have hiff : ratioOf w h > 1 ↔ h < w := by
    rw [ratioOf, gt_iff_lt, one_lt_div hq]
    exact Nat.cast_lt
  refine ⟨hiff, fun hgt => by simp [newPathFor, hgt],
    fun hle => by simp [newPathFor, hle], fun heq => ?_⟩
  have hnot : ¬ratioOf w h > 1 := fun hgt => absurd (hiff.mp hgt) (by omega)
  simp [newPathFor, hnot]

/-- C6 witness: a 1920x1080 image routes horizontal, a square image
routes vertical. -/
theorem c6_orientation_routing_witness :
    newPathFor (ratioOf 1920 1080) "a.jpg" = "hori/" ++ "a.jpg"
  ∧ newPathFor (ratioOf 1080 1080) "b.jpg" = "vert/" ++ "b.jpg" :=
  ⟨(c6_orientation_routing 1920 1080 "a.jpg" (by norm_num)).2.1
      ((c6_orientation_routing 1920 1080 "a.jpg" (by norm_num)).1.mpr (by norm_num)),
    (c6_orientation_routing 1080 1080 "b.jpg" (by norm_num)).2.2.2 rfl⟩

/-- C7: a downloaded file whose declared content-type is neither
image/jpeg nor image/png makes the extractor fail with the
unsupported-format error, and the unit performs no placement: its trace
contains no rename into either destination. -/
theorem c7_unsupported_format_no_placement (r : FetchEnv) (url fn : String)
    (hct1 : r.contentType ≠ "image/jpeg") (hct2 : r.contentType ≠ "image/png")
    (hopen : r.xenv.openOk = true) (h1 : r.createOk = true) (h2 : r.chmodOk = true)
    (h3 : r.headOk = true) (h4 : r.getOk = true) (h5 : r.copyOk = true) :
    (getImageAspectRatio r.xenv fn (codecOf r.contentType)).2 =
      Except.error ExtractErr.unsupportedFormat
  ∧ sendPayloads (fetchImage r url) = [some FetchErr.aspectFailed]
  ∧ (fetchImage r url).filter isRenameEv = [] := by
  have hcodec : codecOf r.contentType = "" := by simp [codecOf, hct1, hct2]
  have hj : ("" : String) ≠ JPEG := by decide
  have hp : ("" : String) ≠ PNG := by decide
  have hres : ∀ g : String,
      (getImageAspectRatio r.xenv g (codecOf r.contentType)).2 =
        Except.error ExtractErr.unsupportedFormat := by
    intro g
    rw [hcodec]
    unfold getImageAspectRatio
    rw [hopen]
    simp [hj, hp]
  refine ⟨hres fn, ?_, ?_⟩
  · unfold fetchImage
    rcases getImageAspectRatio_trace r.xenv (lastSegment url) (codecOf r.contentType)
      with hxt | hxt <;>
    simp [findAllFilename, h1, h2, h3, h4, h5, hres (lastSegment url), hxt,
      withDefer, sendPayloads_append, sendPayloads, sendPayload]
  · unfold fetchImage
    rcases getImageAspectRatio_trace r.xenv (lastSegment url) (codecOf r.contentType)
      with hxt | hxt <;>
    simp [findAllFilename, h1, h2, h3, h4, h5, hres (lastSegment url), hxt,
      withDefer, isRenameEv]

/-- C7 witness: a unit downloading a GIF under an all-success environment
aborts with the extraction failure and never renames. -/
theorem c7_unsupported_format_no_placement_witness :
    (getImageAspectRatio ⟨true, true, 2, 3⟩ "a.gif" (codecOf "image/gif")).2 =
      Except.error ExtractErr.unsupportedFormat
  ∧ sendPayloads (fetchImage
        ⟨true, true, true, "image/gif", true, true, ⟨true, true, 2, 3⟩, true⟩
        "https://i.example/a.gif") = [some FetchErr.aspectFailed]
  ∧ (fetchImage ⟨true, true, true, "image/gif", true, true, ⟨true, true, 2, 3⟩, true⟩
        "https://i.example/a.gif").filter isRenameEv = [] :=
  c7_unsupported_format_no_placement
    ⟨true, true, true, "image/gif", true, true, ⟨true, true, 2, 3⟩, true⟩
    "https://i.example/a.gif" "a.gif" (by decide) (by decide) rfl rfl rfl rfl rfl rfl

/-- C8: the dispatch loop launches exactly one unit of work per eligible
URL, and every unit sends exactly one terminal outcome on the
synchronization channel on every execution path. -/
theorem c8_dispatch_and_single_send (envOf : String → FetchEnv)
    (validURLs : List String) :
    (unitsOf envOf validURLs).length = validURLs.length
  ∧ ∀ (r : FetchEnv) (url : String), (sendPayloads (fetchImage r url)).length = 1 :=
  ⟨by simp [unitsOf], fun r url => fetchImage_sends_len r url⟩

/-- C9: the listing request uses the hard-coded topic string "earthporn";
the configured subreddit name is stored into the subreddit field by
NewReddit but never read, so changing it changes neither the issued
listing query nor the filtering of the returned posts. -/
theorem c9_subreddit_field_unused (u pw cid cs : String) (lim : Int)
    (s s' : String) (exts postURLs : List String) :
    listingQuery (NewReddit ⟨u, pw, cid, cs, lim, s, exts⟩) =
      listingQuery (NewReddit ⟨u, pw, cid, cs, lim, s', exts⟩)
  ∧ (listingQuery (NewReddit ⟨u, pw, cid, cs, lim, s, exts⟩)).subreddit = "earthporn"
  ∧ fetchSubmissions (NewReddit ⟨u, pw, cid, cs, lim, s, exts⟩) postURLs =
      fetchSubmissions (NewReddit ⟨u, pw, cid, cs, lim, s', exts⟩) postURLs
  ∧ (NewReddit ⟨u, pw, cid, cs, lim, s, exts⟩).subreddit = s :=
  ⟨rfl, rfl, rfl, rfl⟩

/-- C10: no execution path of a unit of work ever closes the HEAD
response's body handle (or the extractor's file handle); every handle a
unit closes is the created file or the GET response body, and a run that
passes the GET error check does close the GET body via the deferred close
installed there. -/
theorem c10_head_body_never_closed (r : FetchEnv) (url : String) :
    Handle.headBody ∉ closedHandles (fetchImage r url)
  ∧ Handle.extractFile ∉ closedHandles (fetchImage r url)
  ∧ (∀ h ∈ closedHandles (fetchImage r url),
      h = Handle.createdFile ∨ h = Handle.getBody)
  ∧ (r.createOk = true → r.chmodOk = true → r.headOk = true → r.getOk = true →
      Ev.closeFile Handle.getBody ∈ fetchImage r url) := by
  rcases fetchImage_closes r url with hc | hc | hc <;>
    rw [hc] <;>
    exact ⟨by decide, by decide, by decide,
      fun a b c d => fetchImage_closes_get_body r url a b c d⟩

/-- C10 witness: on an all-success run the GET body is closed. -/
theorem c10_head_body_never_closed_witness :
    Ev.closeFile Handle.getBody ∈ fetchImage
      ⟨true, true, true, "image/png", true, true, ⟨true, true, 3, 4⟩, true⟩
      "https://i.example/c.png" :=
  (c10_head_body_never_closed
      ⟨true, true, true, "image/png", true, true, ⟨true, true, 3, 4⟩, true⟩
      "https://i.example/c.png").2.2.2 rfl rfl rfl rfl
